import Mathlib

/-!
Verification of the Clowder pipeline orchestrator (server/main.py,
server/services.py, agents/job_multiplier.py) against its natural-language
specification.

The embedding translates the database rows touched by the orchestrator into
Lean structures and the orchestrator's SQL queries and Python control flow
into total functions over those structures.  Timestamps are dropped (no claim
mentions them).  The Python `json` library is treated as an external oracle
where the code calls it (`json.loads` on artifact content), exactly like the
subprocess exit code is an input of the executor model.
-/

namespace Clowder

/-- Job status values stored in the jobs.status column. -/
inductive JobStatus where
  | pending
  | running
  | completed
  | failed
  | skipped
deriving DecidableEq, Repr

/-- Pipeline status values stored in the pipelines.status column. -/
inductive PipelineStatus where
  | pending
  | running
  | completed
  | failed
  | cancelled
deriving DecidableEq, Repr

/-- Dependency edge types stored in job_dependencies.dependency_type. -/
inductive DepType where
  | success
  | failure
  | always
deriving DecidableEq, Repr

/-- Parsed form of the jobs.retry_strategy JSON config, as read by run_job
(main.py:133): the keys `include_context` (truthy test) and
`context_instruction` (absent key falls back to a default). -/
structure RetryStrategy where
  includeContext : Bool
  contextInstruction : Option String
deriving DecidableEq, Repr

/-- A row of the jobs table, restricted to the columns the verified code
reads or writes.  Nullable columns are Options, except retry_count and
max_retries which are stored as the effective values run_job computes from
them (a NULL retry_count reads as 0 and a NULL max_retries as 100,
main.py:130-131). -/
structure Job where
  jobId : String
  pipelineId : String
  status : JobStatus
  retryCount : Nat
  maxRetries : Nat
  command : Option String
  prompt : String
  originalPrompt : Option String
  jobOutput : Option String
  terminationReason : Option String
  retryStrategy : Option RetryStrategy
  parentJobId : Option String
  templateJobId : Option String
deriving DecidableEq, Repr

/-- A row of the job_dependencies table. -/
structure Dep where
  jobId : String
  dependsOn : String
  depType : DepType
deriving DecidableEq, Repr

/-- A row of the pipelines table, restricted to the columns the verified
code reads or writes. -/
structure Pipeline where
  pipelineId : String
  templateId : Option String
  originalPrompt : String
  status : PipelineStatus
deriving DecidableEq, Repr

/-- A row of the stages table, restricted to the columns used. -/
structure Stage where
  stageId : String
  pipelineId : String
  stageOrder : Nat
deriving DecidableEq, Repr

/-- A row of the artifacts table, restricted to the columns used by the
multiplier.  `content` is nullable. -/
structure Artifact where
  jobId : String
  name : String
  content : Option String
deriving DecidableEq, Repr

/-- Parsed form of a template job's job_multiplier JSON config
(job_multiplier.py reads it with dict.get, so every key is optional). -/
structure Multiplier where
  sourceTemplateJobId : Option String
  sourceType : Option String
  artifactName : Option String
  parseStrategy : Option String
  promptTemplate : Option String
deriving DecidableEq, Repr

/-- A row of the template_jobs table joined with template_stages
(check_and_spawn_multiplied_jobs, job_multiplier.py:260), restricted to the
columns used when spawning. -/
structure TemplateJob where
  templateJobId : String
  templateId : String
  agentType : String
  commandTemplate : Option String
  artifactStrategy : Option String
  retryStrategy : Option RetryStrategy
  maxIterations : Nat
  timeoutSeconds : Nat
  stageOrder : Nat
  jobMultiplier : Option Multiplier
deriving DecidableEq, Repr

/-- The slice of the database that the verified functions touch. -/
structure State where
  jobs : List Job
  deps : List Dep
  pipelines : List Pipeline
  stages : List Stage
  artifacts : List Artifact
  templateJobs : List TemplateJob
deriving DecidableEq, Repr

/-- Status of the job with the given id (`SELECT status FROM jobs WHERE
job_id = ?`); `none` when no such row exists. -/
def job_status (jobs : List Job) (id : String) : Option JobStatus :=
  (jobs.find? (fun j => j.jobId == id)).map (fun j => j.status)

/-- Status of the pipeline with the given id; `none` when no such row. -/
def pipeline_status (s : State) (id : String) : Option PipelineStatus :=
  (s.pipelines.find? (fun p => p.pipelineId == id)).map (fun p => p.status)

/-! ## Executor (run_job, main.py:120-267) -/

/-- Default continuation instruction used when retry_strategy carries no
`context_instruction` key (main.py:140-143). -/
def defaultContextInstruction : String :=
  "IMPORTANT: This is a retry. Previous attempt output is below. Continue from where you left off.\n\n"

/-- The effective prompt computed (and persisted) by run_job before spawning
the subprocess (main.py:135-154).  When this is a retry (`retry_count > 0`),
the strategy asks for context, and the previously stored `job_output` is
non-empty (Python truthiness), the prompt becomes the context instruction
followed by the previous output and the original prompt; otherwise the
stored prompt is left unchanged. -/
def computeEffectivePrompt (job : Job) : String :=
  let previous_output := match job.jobOutput with
    | some o => o
    | none => ""
  let includeCtx := match job.retryStrategy with
    | some rs => rs.includeContext
    | none => false
  if job.retryCount > 0 ∧ includeCtx = true ∧ previous_output ≠ "" then
    let context_instruction := match job.retryStrategy with
      | some rs => rs.contextInstruction.getD defaultContextInstruction
      | none => defaultContextInstruction
    let original_prompt := match job.originalPrompt with
      | some o => if o = "" then job.prompt else o
      | none => job.prompt
    context_instruction ++ "=== PREVIOUS ATTEMPT OUTPUT ===\n" ++ previous_output
      ++ "\n\n=== ORIGINAL TASK ===\n" ++ original_prompt
  else
    job.prompt

/-- One run_job attempt on a single job row, given the subprocess exit code
and the captured merged stdout+stderr (main.py:135-218): persist the
effective prompt, set the job running, then on exit 0 write
completed/success/output; on non-zero exit with retries left re-queue as
pending with retry_count+1 and return (no terminal write, job_output not
stored); otherwise write failed with the exit-code reason and the output. -/
def runJobAttempt (job : Job) (returncode : Int) (log_output : String) : Job :=
  let job1 : Job := { job with prompt := computeEffectivePrompt job }
  let job2 : Job := { job1 with status := JobStatus.running }
  if returncode = 0 then
    { job2 with
        status := JobStatus.completed
        terminationReason := some "success"
        jobOutput := some log_output }
  else if job.retryCount < job.maxRetries then
    { job2 with
        status := JobStatus.pending
        retryCount := job.retryCount + 1 }
  else
    { job2 with
        status := JobStatus.failed
        terminationReason := some ("exit_code_" ++ toString returncode ++ "_after_"
          ++ toString (job.retryCount + 1) ++ "_attempts")
        jobOutput := some log_output }

/-! ## Scheduler ready-job selection (orchestration_loop, main.py:83-103) -/

/-- The NOT EXISTS subquery of the ready-job query (main.py:88-94): the job
has some dependency edge whose source job's status is not `completed`.  Note
the query joins on the jobs table and tests only `dep.status NOT IN
('completed')`; the edge's dependency_type is never consulted. -/
def blocking_dep (s : State) (j : Job) : Bool :=
  s.deps.any (fun d => d.jobId == j.jobId &&
    s.jobs.any (fun u => u.jobId == d.dependsOn && !(u.status == JobStatus.completed)))

/-- Whether the ready-job query (main.py:84-96) selects this job: it is
`pending` and has no blocking dependency.  No condition on the job's
pipeline appears in the query. -/
def isReadyCode (s : State) (j : Job) : Bool :=
  j.status == JobStatus.pending && !blocking_dep s j

/-- The single row returned by the ready-job query (`LIMIT 1`, rows in table
order). -/
def ready_job (s : State) : Option Job :=
  s.jobs.find? (fun j => isReadyCode s j)

/-- The job dispatched by one scheduler tick when no executor is active
(main.py:83-103): the ready job is handed to run_job, whose first database
write sets its status to `running` (main.py:156-161). -/
def scheduler_dispatch (s : State) : Option String :=
  (ready_job s).map (fun j => j.jobId)

/-- Modelled from the spec (§4.6 and claim wording): a pending job is
eligible to run iff for every incoming dependency edge the edge's
type-specific precondition holds on the source job u: success needs u
`completed`, failure needs u `failed`, always needs u `completed` or
`failed`.  This is the refinement target the ready-job query is compared
against. -/
def eligibleSpec (s : State) (j : Job) : Bool :=
  j.status == JobStatus.pending &&
  s.deps.all (fun d =>
    !(d.jobId == j.jobId) ||
    s.jobs.any (fun u => u.jobId == d.dependsOn &&
      (match d.depType with
       | DepType.success => u.status == JobStatus.completed
       | DepType.failure => u.status == JobStatus.failed
       | DepType.always => u.status == JobStatus.completed || u.status == JobStatus.failed)))

/-! ## Pipeline completion and deadlock (check_pipeline_completion, main.py:308-380) -/

/-- Jobs belonging to a pipeline (`WHERE pipeline_id = ?`). -/
def jobs_of (s : State) (pid : String) : List Job :=
  s.jobs.filter (fun j => j.pipelineId == pid)

/-- A job status counted as done by the completion query (main.py:313). -/
def isTerminal (st : JobStatus) : Bool :=
  st == JobStatus.completed || st == JobStatus.failed || st == JobStatus.skipped

/-- One disjunct of the deadlock query (main.py:347-354): the edge has a
source job row and that row's status makes the edge count as still
satisfiable.  The code treats an `always` edge as satisfiable regardless of
the source job's status (`OR jd.dependency_type = 'always'`). -/
def dep_satisfiable_code (s : State) (d : Dep) : Bool :=
  s.jobs.any (fun u => u.jobId == d.dependsOn &&
    (u.status == JobStatus.running || u.status == JobStatus.pending
      || (d.depType == DepType.success && u.status == JobStatus.completed)
      || (d.depType == DepType.failure && u.status == JobStatus.failed)
      || d.depType == DepType.always))

/-- The second EXISTS of the deadlock query (main.py:356-359): the job has
at least one dependency edge (no join, so the source row need not exist). -/
def has_dependency (s : State) (j : Job) : Bool :=
  s.deps.any (fun d => d.jobId == j.jobId)

/-- Whether the deadlock query (main.py:335-360) counts this job: pending,
with at least one dependency edge, and with no edge in a satisfiable
state. -/
def deadlocked_code (s : State) (j : Job) : Bool :=
  j.status == JobStatus.pending
    && !(s.deps.any (fun d => d.jobId == j.jobId && dep_satisfiable_code s d))
    && has_dependency s j

/-- Whether the deadlock query returns a positive count for the pipeline. -/
def deadlock_exists (s : State) (pid : String) : Bool :=
  (jobs_of s pid).any (fun j => deadlocked_code s j)

/-- The UPDATE pipelines SET status = ? statement (main.py:323-327 and
364-368). -/
def set_pipeline_status (s : State) (pid : String) (st : PipelineStatus) : State :=
  { s with pipelines := s.pipelines.map (fun p =>
      if p.pipelineId == pid then { p with status := st } else p) }

/-- The deadlock branch's job update (main.py:371-378): every pending job of
the pipeline becomes `skipped` with termination_reason
`pipeline_deadlocked`. -/
def skip_pending_jobs (s : State) (pid : String) : State :=
  { s with jobs := s.jobs.map (fun j =>
      if j.pipelineId == pid && j.status == JobStatus.pending then
        { j with status := JobStatus.skipped
                 terminationReason := some "pipeline_deadlocked" }
      else j) }

/-- check_pipeline_completion (main.py:308-380).  When the pipeline has no
jobs the SQL SUM aggregates are NULL, the Python comparison `total == done`
is false and `pending > 0` raises a TypeError that the orchestration loop
swallows, so the state is unchanged.  Otherwise: if every job is terminal,
the pipeline becomes `failed` when some job failed else `completed`; else if
some job is pending and the deadlock query counts at least one job, the
pipeline becomes `failed` and every pending job of the pipeline becomes
`skipped` with reason `pipeline_deadlocked`. -/
def check_pipeline_completion (s : State) (pid : String) : State :=
  let pjobs := jobs_of s pid
  if pjobs.isEmpty then s
  else if pjobs.all (fun j => isTerminal j.status) then
    set_pipeline_status s pid
      (if pjobs.any (fun j => j.status == JobStatus.failed) then PipelineStatus.failed
       else PipelineStatus.completed)
  else if pjobs.any (fun j => j.status == JobStatus.pending) then
    if deadlock_exists s pid then
      skip_pending_jobs (set_pipeline_status s pid PipelineStatus.failed) pid
    else s
  else s

/-- Modelled from the spec (claim C6 wording): an edge (u→v, type) is
potentially satisfiable iff u.status ∈ \x7bpending, running\x7d or the
edge's type-specific terminal precondition already holds, where the
`always` precondition is u ∈ \x7bcompleted, failed\x7d. -/
def dep_satisfiable_claim (s : State) (d : Dep) : Bool :=
  s.jobs.any (fun u => u.jobId == d.dependsOn &&
    (u.status == JobStatus.pending || u.status == JobStatus.running
      || (match d.depType with
          | DepType.success => u.status == JobStatus.completed
          | DepType.failure => u.status == JobStatus.failed
          | DepType.always => u.status == JobStatus.completed || u.status == JobStatus.failed)))

/-- Modelled from the spec (claim C6 wording): a pending job is deadlocked
iff it has at least one incoming dependency edge and no incoming edge is
potentially satisfiable in the sense of `dep_satisfiable_claim`. -/
def deadlocked_claim (s : State) (j : Job) : Bool :=
  j.status == JobStatus.pending
    && has_dependency s j
    && !(s.deps.any (fun d => d.jobId == j.jobId && dep_satisfiable_claim s d))

/-- The amended satisfiability notion (claim C6 corrected to the code): like
`dep_satisfiable_claim` except that an `always` edge is potentially
satisfiable whatever the source job's status. -/
def dep_satisfiable_amended (s : State) (d : Dep) : Bool :=
  s.jobs.any (fun u => u.jobId == d.dependsOn &&
    (u.status == JobStatus.pending || u.status == JobStatus.running
      || (match d.depType with
          | DepType.success => u.status == JobStatus.completed
          | DepType.failure => u.status == JobStatus.failed
          | DepType.always => true)))

/-- The amended deadlock notion: at least one incoming edge and no incoming
edge potentially satisfiable in the amended sense. -/
def deadlocked_amended (s : State) (j : Job) : Bool :=
  j.status == JobStatus.pending
    && has_dependency s j
    && !(s.deps.any (fun d => d.jobId == j.jobId && dep_satisfiable_amended s d))

/-! ## Failure propagation (propagate_job_failure, main.py:270-305) -/

/-- The dependent-job update of propagate_job_failure (main.py:291-298):
every jobs row with this id becomes `skipped` with termination_reason
`dependency_failed` (the UPDATE has no status condition). -/
def set_job_skipped (jobs : List Job) (id : String) : List Job :=
  jobs.map (fun j =>
    if j.jobId == id then
      { j with status := JobStatus.skipped
               terminationReason := some "dependency_failed" }
    else j)

/-- propagate_job_failure (main.py:270-305), with a fuel parameter standing
for the recursion depth (the Python recursion terminates because the
dependency graph is acyclic; exhausted fuel returns the state unchanged).
The dependents query (main.py:276-282) snapshots the edges into the failed
job whose dependent is currently `pending`; then, for each such edge of
type `success`, the dependent is set `skipped` and the propagation recurses
from it.  Edges of type `failure` or `always` are left alone. -/
def propagate_job_failure : Nat → List Job → List Dep → String → List Job
  | 0, jobs, _, _ => jobs
  | Nat.succ n, jobs, deps, failed_job_id =>
    let dependent_jobs := deps.filter (fun d =>
      d.dependsOn == failed_job_id && job_status jobs d.jobId == some JobStatus.pending)
    dependent_jobs.foldl (fun js d =>
      if d.depType == DepType.success then
        propagate_job_failure n (set_job_skipped js d.jobId) deps d.jobId
      else js) jobs

/-- One step of the fold inside `propagate_job_failure`, named so that the
fold can be reasoned about. -/
def propagate_step (n : Nat) (deps : List Dep) (js : List Job) (d : Dep) : List Job :=
  if d.depType == DepType.success then
    propagate_job_failure n (set_job_skipped js d.jobId) deps d.jobId
  else js

/-! ## Multiplier (job_multiplier.py) -/

/-- Abstract outcome of a successful Python `json.loads` call as consumed by
parse_artifact_content: a JSON array is given as the list of its elements
already rendered by Python `str`, and any other JSON value as a single
rendered item.  A failing `json.loads` is `none` in the oracle's Option. -/
inductive PyItems where
  | list (items : List String)
  | single (item : String)
deriving DecidableEq, Repr

/-- parse_artifact_content (job_multiplier.py:16-52).  `json_loads` is the
oracle for Python `json.loads`.  Empty content gives no items; under
`json_array` a parse failure falls back to the whole content as a single
item (job_multiplier.py:40-42); `line_delimited` and `comma_separated`
split, strip and drop blanks; an unknown strategy wraps the content. -/
def parse_artifact_content (json_loads : String → Option PyItems)
    (content : String) (parse_strategy : String) : List String :=
  if content = "" then []
  else if parse_strategy = "json_array" then
    match json_loads content.trim with
    | some (PyItems.list items) => items
    | some (PyItems.single item) => [item]
    | none => [content]
  else if parse_strategy = "line_delimited" then
    ((content.splitOn "\n").map (fun line => line.trim)).filter (fun line => !(line == ""))
  else if parse_strategy = "comma_separated" then
    ((content.splitOn ",").map (fun item => item.trim)).filter (fun item => !(item == ""))
  else [content]

/-- The items-source acquisition of spawn_multiplied_jobs
(job_multiplier.py:83-124): under source_type=`action` the finish-tool tasks
of the last recorded action (the `finish_tasks` oracle: job_multiplier.py:86-109,
the last recorded action's finish-tool tasks re-serialized by `json.dumps`,
`none` when there is no action history or no finish tasks), otherwise the
newest artifact with the configured name, failing (`none`) when the source
is missing, NULL or empty. -/
def multiplier_tasks_content (finish_tasks : String → Option String) (s : State)
    (source_job_id : String) (mc : Multiplier) : Option String :=
  let source_type := mc.sourceType.getD "artifact"
  if source_type = "action" then finish_tasks source_job_id
  else
    match (s.artifacts.filter (fun a =>
        a.jobId == source_job_id && a.name == mc.artifactName.getD "final_output.txt")).head? with
    | none => none
    | some a =>
      match a.content with
      | none => none
      | some c => if c = "" then none else some c

/-- spawn_multiplied_jobs (job_multiplier.py:55-200), returning the inserted
jobs rows and job_dependencies rows: parse the items source per the
configured strategy, and insert one pending job per item (with substituted
prompt and command and a back-reference to the template job and the parent)
plus a success-edge dependency on the parent.  Fresh `uuid4` job ids are
modelled as names indexed by the item position; the allowed_paths column is
not modelled. -/
def spawn_multiplied_jobs (json_loads : String → Option PyItems)
    (finish_tasks : String → Option String) (s : State) (source_job_id : String)
    (tj : TemplateJob) (mc : Multiplier) (pipeline_id : String)
    (original_prompt : String) : List Job × List Dep :=
  match multiplier_tasks_content finish_tasks s source_job_id mc with
  | none => ([], [])
  | some tasks_content =>
    let parse_strategy := mc.parseStrategy.getD "json_array"
    let items := parse_artifact_content json_loads tasks_content parse_strategy
    if items.isEmpty then ([], [])
    else
      let prompt_template := mc.promptTemplate.getD "\x7b\x7bitem\x7d\x7d"
      let children : List Job := items.enum.map (fun (p : Nat × String) =>
        let job_id := source_job_id ++ "-child-" ++ toString p.1
        let prompt := ((prompt_template.replace "\x7b\x7bitem\x7d\x7d" p.2).replace
            "\x7b\x7boriginal_prompt\x7d\x7d" original_prompt).replace
            "\x7b\x7bindex\x7d\x7d" (toString p.1)
        let command : Option String := match tj.commandTemplate with
          | some ct =>
            if ct = "" then none
            else some (((ct.replace "\x7b\x7bjob_id\x7d\x7d" job_id).replace
              "\x7b\x7bprompt\x7d\x7d" prompt).replace "\x7b\x7bagent_type\x7d\x7d" tj.agentType)
          | none => none
        { jobId := job_id
          pipelineId := pipeline_id
          status := JobStatus.pending
          retryCount := 0
          maxRetries := 100
          command := command
          prompt := prompt
          originalPrompt := some prompt
          jobOutput := none
          terminationReason := none
          retryStrategy := tj.retryStrategy
          parentJobId := some source_job_id
          templateJobId := some tj.templateJobId })
      (children, children.map (fun c =>
        { jobId := c.jobId, dependsOn := source_job_id, depType := DepType.success }))

/-- The per-template-job body of the loop in check_and_spawn_multiplied_jobs
(job_multiplier.py:269-311): skip when the multiplier has no (or an empty)
source_template_job_id, when it references another template job, when a
child for the `(parent_job_id, template_job_id)` pair already exists
(job_multiplier.py:280-288), or when the declaring stage row is missing;
otherwise spawn. -/
def multiplier_spawn_for (json_loads : String → Option PyItems)
    (finish_tasks : String → Option String) (st : State) (completed_job_id : String)
    (pipeline_id : String) (original_prompt : String) (ctj : String)
    (tj : TemplateJob) : List Job × List Dep :=
  match tj.jobMultiplier with
  | none => ([], [])
  | some mc =>
    match mc.sourceTemplateJobId with
    | none => ([], [])
    | some stj =>
      if stj = "" then ([], [])
      else if !(stj == ctj) then ([], [])
      else if st.jobs.any (fun j =>
          j.parentJobId == some completed_job_id && j.templateJobId == some tj.templateJobId) then
        ([], [])
      else
        match st.stages.find? (fun sg =>
            sg.pipelineId == pipeline_id && sg.stageOrder == tj.stageOrder) with
        | none => ([], [])
        | some _ =>
          spawn_multiplied_jobs json_loads finish_tasks st completed_job_id tj mc
            pipeline_id original_prompt

/-- One iteration of the template-jobs loop in
check_and_spawn_multiplied_jobs: spawn for this template job against the
threaded store, then append the inserted rows to the store and the spawned
jobs to the accumulator. -/
def check_spawn_step (json_loads : String → Option PyItems)
    (finish_tasks : String → Option String)
    (completed_job_id pipeline_id original_prompt ctj : String)
    (acc : State × List Job) (tj : TemplateJob) : State × List Job :=
  let spawned := multiplier_spawn_for json_loads finish_tasks acc.1
    completed_job_id pipeline_id original_prompt ctj tj
  ({ acc.1 with jobs := acc.1.jobs ++ spawned.1
                deps := acc.1.deps ++ spawned.2 },
   acc.2 ++ spawned.1)

/-- check_and_spawn_multiplied_jobs (job_multiplier.py:203-313), returning
the list of spawned jobs (the Python function returns their count).  The
loop threads the store: jobs spawned for one template job are visible to the
already-spawned guard of the next iteration. -/
def check_and_spawn_multiplied_jobs (json_loads : String → Option PyItems)
    (finish_tasks : String → Option String) (s : State)
    (completed_job_id : String) : List Job :=
  match s.jobs.find? (fun j => j.jobId == completed_job_id) with
  | none => []
  | some cj =>
    let pipeline_id := cj.pipelineId
    let pipeline? := s.pipelines.find? (fun p => p.pipelineId == pipeline_id)
    let original_prompt := match pipeline? with
      | some p => p.originalPrompt
      | none => ""
    match pipeline?.bind (fun p => p.templateId) with
    | none => []
    | some tid =>
      if tid = "" then []
      else
        match cj.templateJobId with
        | none => []
        | some ctj =>
          if ctj = "" then []
          else
            let tjs := s.templateJobs.filter (fun tj =>
              tj.templateId == tid && tj.jobMultiplier.isSome)
            (tjs.foldl (check_spawn_step json_loads finish_tasks
              completed_job_id pipeline_id original_prompt ctj) (s, [])).2

/-! ## Stop operation (PipelineService.stop_pipeline, services.py:127-149) -/

/-- The dict returned by stop_pipeline and passed through unchanged by the
POST /pipelines/\x7bpipeline_id\x7d/stop handler (main.py:460-465). -/
structure StopResult where
  pipeline_id : String
  name : String
  status : String
deriving DecidableEq, Repr

/-- PipelineService.stop_pipeline (services.py:127-149): read the pipeline's
original_prompt, unconditionally UPDATE its status to `cancelled` (a missing
id matches no row), and return the id, the prompt truncated to 50
characters (`"Unknown"` when the row is missing) and the literal status
`"cancelled"`. -/
def stop_pipeline (s : State) (pipeline_id : String) : State × StopResult :=
  let pipeline? := s.pipelines.find? (fun p => p.pipelineId == pipeline_id)
  let s' : State := { s with pipelines := s.pipelines.map (fun p =>
      if p.pipelineId == pipeline_id then { p with status := PipelineStatus.cancelled }
      else p) }
  let name := match pipeline? with
    | some p => p.originalPrompt.take 50
    | none => "Unknown"
  (s', { pipeline_id := pipeline_id, name := name, status := "cancelled" })

/-! ## Shared concrete rows used by the concrete theorems -/

/-- A jobs row with neutral defaults; concrete states below override the
fields they care about. -/
def baseJob : Job :=
  { jobId := "j", pipelineId := "p", status := JobStatus.pending, retryCount := 0,
    maxRetries := 0, command := none, prompt := "", originalPrompt := none,
    jobOutput := none, terminationReason := none, retryStrategy := none,
    parentJobId := none, templateJobId := none }

/-- The empty store. -/
def emptyState : State :=
  { jobs := [], deps := [], pipelines := [], stages := [], artifacts := [],
    templateJobs := [] }

/-- Store with job u failed and pending job v whose only incoming edge is a
failure-edge from u. -/
def c1_state_failure_failed : State :=
  { emptyState with
    jobs := [{ baseJob with jobId := "u", status := JobStatus.failed },
             { baseJob with jobId := "v" }],
    deps := [{ jobId := "v", dependsOn := "u", depType := DepType.failure }] }

/-- Store with job u completed and pending job v whose only incoming edge is
a failure-edge from u. -/
def c1_state_failure_completed : State :=
  { emptyState with
    jobs := [{ baseJob with jobId := "u", status := JobStatus.completed },
             { baseJob with jobId := "v" }],
    deps := [{ jobId := "v", dependsOn := "u", depType := DepType.failure }] }

/-- Job used to instantiate `run_job_outcome_spec`. -/
def c3_job : Job := { baseJob with jobId := "job3", maxRetries := 2, prompt := "t" }

/-- The scenario job of claim C4: include_context with instruction
`RESUME:\n`, fresh (retry_count 0, no stored output). -/
def c4_job : Job :=
  { baseJob with
    jobId := "job4", prompt := "orig task",
    originalPrompt := some "orig task", maxRetries := 2,
    retryStrategy := some { includeContext := true, contextInstruction := some "RESUME:\n" } }

/-- Store before the stop: pipeline pc running with one dependency-free
pending job j1. -/
def c5_state_before : State :=
  { emptyState with
    jobs := [{ baseJob with jobId := "j1", pipelineId := "pc" }],
    pipelines := [{ pipelineId := "pc", templateId := none, originalPrompt := "x",
                    status := PipelineStatus.running }] }

/-- Store right after POST /pipelines/pc/stop. -/
def c5_state_after : State := (stop_pipeline c5_state_before "pc").1

/-- Oracle for `json.loads` that fails on every input; it agrees with
`json.loads` on the only content probed below, `"not json"`, which is not
valid JSON. -/
def c7_json_fail : String → Option PyItems := fun _ => none

/-- Oracle for the action-history lookup; the states below use the artifact
branch, so it is never consulted. -/
def c7_no_actions : String → Option String := fun _ => none

/-- Template job declaring the multiplier of the C7 scenario. -/
def c7_template : TemplateJob :=
  { templateJobId := "tw", templateId := "T", agentType := "worker",
    commandTemplate := none, artifactStrategy := none, retryStrategy := none,
    maxIterations := 1, timeoutSeconds := 1, stageOrder := 1, jobMultiplier := none }

/-- Multiplier config with every key defaulted (parse_strategy defaults to
json_array, artifact_name to final_output.txt). -/
def c7_multiplier : Multiplier :=
  { sourceTemplateJobId := some "tp", sourceType := none, artifactName := none,
    parseStrategy := none, promptTemplate := none }

/-- Store holding the parent's artifact whose content is not valid JSON. -/
def c7_state : State :=
  { emptyState with
    artifacts := [{ jobId := "parent", name := "final_output.txt",
                    content := some "not json" }] }

/-- Store with job u skipped and pending job v whose only incoming edge is
an always-edge from u, under running pipeline p. -/
def c6_always_skipped_state : State :=
  { emptyState with
    jobs := [{ baseJob with jobId := "u", status := JobStatus.skipped },
             { baseJob with jobId := "v" }],
    deps := [{ jobId := "v", dependsOn := "u", depType := DepType.always }],
    pipelines := [{ pipelineId := "p", templateId := none, originalPrompt := "x",
                    status := PipelineStatus.running }] }

/-- Store with job u completed and pending job v whose only incoming edge is
a failure-edge from u, under running pipeline p: v is deadlocked (also in
the amended sense). -/
def c6_failure_completed_state : State :=
  { emptyState with
    jobs := [{ baseJob with jobId := "u", status := JobStatus.completed },
             { baseJob with jobId := "v" }],
    deps := [{ jobId := "v", dependsOn := "u", depType := DepType.failure }],
    pipelines := [{ pipelineId := "p", templateId := none, originalPrompt := "x",
                    status := PipelineStatus.running }] }

/-- Concrete quiescent store for the C2 witness: running pipeline p with one
completed and one failed job. -/
def c2_witness_state : State :=
  { emptyState with
    jobs := [{ baseJob with jobId := "u", status := JobStatus.completed },
             { baseJob with jobId := "w", status := JobStatus.failed }],
    pipelines := [{ pipelineId := "p", templateId := none, originalPrompt := "x",
                    status := PipelineStatus.running }] }

/-- Store for the C8 witness: completed parent from template job tp, an
already spawned child for the pair (parent, tw), and a template job tw whose
multiplier references tp. -/
def c8_state : State :=
  { emptyState with
    jobs := [{ baseJob with
                jobId := "parent", status := JobStatus.completed,
                templateJobId := some "tp" },
             { baseJob with
                jobId := "child0", parentJobId := some "parent",
                templateJobId := some "tw" }],
    pipelines := [{ pipelineId := "p", templateId := some "T", originalPrompt := "x",
                    status := PipelineStatus.running }],
    stages := [{ stageId := "s1", pipelineId := "p", stageOrder := 1 }],
    artifacts := [{ jobId := "parent", name := "final_output.txt", content := some "[1,2]" }],
    templateJobs := [{ c7_template with jobMultiplier := some c7_multiplier }] }

/-! ## General list lemmas used below -/

/-- find? commutes with a map that does not change the predicate. -/
theorem find?_map_pres {α : Type} (g : α → α) (p : α → Bool)
    (h : ∀ x, p (g x) = p x) :
    ∀ l : List α, (l.map g).find? p = (l.find? p).map g := by
  intro l
  induction l with
  | nil => rfl
  | cons x xs ih =>
    by_cases hx : p x = true
    · simp [List.find?_cons, hx, h x]
    · simp only [Bool.not_eq_true] at hx
      simp [List.find?_cons, hx, h x, ih]

/-- filter commutes with a map that does not change the predicate. -/
theorem filter_map_pres {α : Type} (g : α → α) (p : α → Bool)
    (h : ∀ x, p (g x) = p x) :
    ∀ l : List α, (l.map g).filter p = (l.filter p).map g := by
  intro l
  induction l with
  | nil => rfl
  | cons x xs ih =>
    by_cases hx : p x = true
    · simp [List.filter_cons, hx, h x, ih]
    · simp only [Bool.not_eq_true] at hx
      simp [List.filter_cons, hx, h x, ih]

/-! ## C1: scheduler eligibility vs dependency types -/

/-- C1.  The claim says a pending job is selected iff every incoming edge's
type-specific precondition holds, so v (failure-edge from a failed u) is
eligible.  The ready-job query (main.py:84-96) tests only `dep.status NOT IN
('completed')` and never reads dependency_type: it refuses to dispatch v
when u is failed (first three conjuncts) and dispatches v when u is
completed, although the failure-edge precondition is then violated (last
three conjuncts).  This contradicts the code's own comment that jobs with
failure/always dependency types can still run (main.py:288-289) and the
type-aware deadlock query (main.py:351-354), so the code is the slip. -/
theorem scheduler_dispatch_ignores_dependency_type :
    eligibleSpec c1_state_failure_failed { baseJob with jobId := "v" } = true ∧
    isReadyCode c1_state_failure_failed { baseJob with jobId := "v" } = false ∧
    ready_job c1_state_failure_failed = none ∧
    eligibleSpec c1_state_failure_completed { baseJob with jobId := "v" } = false ∧
    isReadyCode c1_state_failure_completed { baseJob with jobId := "v" } = true ∧
    scheduler_dispatch c1_state_failure_completed = some "v" := by
  decide

/-! ## C3: executor outcome on exit code -/

/-- C3.  For a run of run_job with exit code `rc` and captured output
`log_output`: exit 0 writes completed/success/output; non-zero with retries
left re-queues as pending with retry_count+1 and leaves job_output and
termination_reason untouched; non-zero with retry_count = max_retries writes
failed with reason `exit_code_<code>_after_<n>_attempts`, n = retry_count+1,
and the output (main.py:191-218). -/
theorem run_job_outcome_spec (job : Job) (rc : Int) (log_output : String) :
    (rc = 0 →
      (runJobAttempt job rc log_output).status = JobStatus.completed ∧
      (runJobAttempt job rc log_output).terminationReason = some "success" ∧
      (runJobAttempt job rc log_output).jobOutput = some log_output) ∧
    (rc ≠ 0 → job.retryCount < job.maxRetries →
      (runJobAttempt job rc log_output).status = JobStatus.pending ∧
      (runJobAttempt job rc log_output).retryCount = job.retryCount + 1 ∧
      (runJobAttempt job rc log_output).jobOutput = job.jobOutput ∧
      (runJobAttempt job rc log_output).terminationReason = job.terminationReason) ∧
    (rc ≠ 0 → job.retryCount = job.maxRetries →
      (runJobAttempt job rc log_output).status = JobStatus.failed ∧
      (runJobAttempt job rc log_output).terminationReason =
        some ("exit_code_" ++ toString rc ++ "_after_"
          ++ toString (job.retryCount + 1) ++ "_attempts") ∧
      (runJobAttempt job rc log_output).jobOutput = some log_output) := by
  refine ⟨fun h0 => ?_, fun h0 hlt => ?_, fun h0 heq => ?_⟩
  · simp [runJobAttempt, h0]
  · simp [runJobAttempt, h0, hlt]
  · simp [runJobAttempt, h0, heq]

/-- Witness for `run_job_outcome_spec`: all three branches evaluated on
concrete inputs. -/
theorem run_job_outcome_spec_witness :
    ((runJobAttempt c3_job 0 "out").status = JobStatus.completed ∧
      (runJobAttempt c3_job 0 "out").terminationReason = some "success" ∧
      (runJobAttempt c3_job 0 "out").jobOutput = some "out") ∧
    ((runJobAttempt c3_job 1 "out").status = JobStatus.pending ∧
      (runJobAttempt c3_job 1 "out").retryCount = 1 ∧
      (runJobAttempt c3_job 1 "out").jobOutput = c3_job.jobOutput ∧
      (runJobAttempt c3_job 1 "out").terminationReason = c3_job.terminationReason) ∧
    ((runJobAttempt { c3_job with retryCount := 2 } 7 "out").status = JobStatus.failed ∧
      (runJobAttempt { c3_job with retryCount := 2 } 7 "out").terminationReason =
        some ("exit_code_" ++ toString (7 : Int) ++ "_after_"
          ++ toString ((2 : Nat) + 1) ++ "_attempts") ∧
      (runJobAttempt { c3_job with retryCount := 2 } 7 "out").jobOutput = some "out") :=
  ⟨(run_job_outcome_spec c3_job 0 "out").1 rfl,
   (run_job_outcome_spec c3_job 1 "out").2.1 (by decide) (by decide),
   (run_job_outcome_spec { c3_job with retryCount := 2 } 7 "out").2.2 (by decide) (by decide)⟩

/-! ## C4: retry with context -/

/-- C4.  In the claim's scenario the first attempt prints `step1` and exits
non-zero; the claim says the second attempt's stored prompt then begins with
the context instruction and the previous output.  In the code the retry
branch (main.py:196-205) re-queues the job without writing job_output, so at
the second attempt the previous output reads as empty and the augmentation
(main.py:136-154) is skipped: the stored prompt stays `orig task`.  The last
conjunct shows the augmented prompt the code would build had job_output been
persisted, which is what the claim (and spec scenario 6) expects. -/
theorem retry_context_prompt_not_persisted :
    (runJobAttempt c4_job 1 "step1").status = JobStatus.pending ∧
    (runJobAttempt c4_job 1 "step1").retryCount = 1 ∧
    (runJobAttempt c4_job 1 "step1").jobOutput = none ∧
    computeEffectivePrompt (runJobAttempt c4_job 1 "step1") = "orig task" ∧
    computeEffectivePrompt { runJobAttempt c4_job 1 "step1" with jobOutput := some "step1" } =
      "RESUME:\n=== PREVIOUS ATTEMPT OUTPUT ===\nstep1\n\n=== ORIGINAL TASK ===\norig task" := by
  refine ⟨?_, ?_, ?_, ?_, ?_⟩ <;> decide

/-! ## C5: stop does not starve the scheduler -/

/-- C5.  The claim says that after stop sets the pipeline `cancelled` the
scheduler never dispatches its jobs.  The ready-job query (main.py:84-96)
never joins the pipelines table, so on the very next tick the pending job j1
of the cancelled pipeline is selected and handed to run_job, which moves it
pending → running (main.py:98-102, 156-161). -/
theorem cancelled_pipeline_job_still_dispatched :
    pipeline_status c5_state_after "pc" = some PipelineStatus.cancelled ∧
    job_status c5_state_after.jobs "j1" = some JobStatus.pending ∧
    scheduler_dispatch c5_state_after = some "j1" := by
  refine ⟨?_, ?_, ?_⟩ <;> decide

/-! ## C7: multiplier parse failure -/

/-- C7 counterexample.  The claim says a parse failure is treated as zero
items and no children are spawned.  On JSONDecodeError
parse_artifact_content returns the whole content as a single item
(job_multiplier.py:40-42), so spawn_multiplied_jobs creates exactly one
child job, not zero. -/
theorem parse_failure_counterexample :
    parse_artifact_content c7_json_fail "not json" "json_array" = ["not json"] ∧
    (spawn_multiplied_jobs c7_json_fail c7_no_actions c7_state "parent"
        c7_template c7_multiplier "p" "orig").1.length = 1 := by
  refine ⟨?_, ?_⟩ <;> decide

/-- C7 amended.  When the multiplier's items source yields non-empty content
that `json.loads` cannot parse under parse_strategy `json_array`, the parse
failure wraps the whole content as a single item and exactly one child job
is spawned (job_multiplier.py:40-42, 127-145). -/
theorem parse_failure_single_item (json_loads : String → Option PyItems)
    (finish_tasks : String → Option String) (s : State) (source_job_id : String)
    (tj : TemplateJob) (mc : Multiplier) (pipeline_id original_prompt c : String)
    (hc : multiplier_tasks_content finish_tasks s source_job_id mc = some c)
    (hstrat : mc.parseStrategy.getD "json_array" = "json_array")
    (hfail : json_loads c.trim = none)
    (hne : c ≠ "") :
    parse_artifact_content json_loads c "json_array" = [c] ∧
    (spawn_multiplied_jobs json_loads finish_tasks s source_job_id tj mc
        pipeline_id original_prompt).1.length = 1 := by
  have hparse : parse_artifact_content json_loads c "json_array" = [c] := by
    simp [parse_artifact_content, hne, hfail]
  refine ⟨hparse, ?_⟩
  simp [spawn_multiplied_jobs, hc, hstrat, hparse]

/-- Witness for `parse_failure_single_item` at the concrete C7 store. -/
theorem parse_failure_single_item_witness :
    parse_artifact_content c7_json_fail "not json" "json_array" = ["not json"] ∧
    (spawn_multiplied_jobs c7_json_fail c7_no_actions c7_state "parent"
        c7_template c7_multiplier "p2" "orig2").1.length = 1 :=
  parse_failure_single_item c7_json_fail c7_no_actions c7_state "parent"
    c7_template c7_multiplier "p2" "orig2" "not json"
    (by decide) (by decide) rfl (by decide)

/-! ## C10: stop never fails -/

/-- C10.  stop_pipeline always succeeds and always reports status
`cancelled`: the UPDATE is unconditional on the prior status (any stored
pipeline with that id ends up `cancelled`, even when it was already
completed, failed or cancelled), jobs and dependencies are untouched, the
returned name is the stored prompt truncated to 50 characters (or `Unknown`
when the id is unknown), and an unknown id leaves the store unchanged
(services.py:127-149; the HTTP handler returns the dict as is,
main.py:460-465). -/
theorem stop_pipeline_total (s : State) (pid : String) :
    (stop_pipeline s pid).2.status = "cancelled" ∧
    (stop_pipeline s pid).2.pipeline_id = pid ∧
    pipeline_status (stop_pipeline s pid).1 pid
      = (pipeline_status s pid).map (fun _ => PipelineStatus.cancelled) ∧
    (stop_pipeline s pid).1.jobs = s.jobs ∧
    (stop_pipeline s pid).1.deps = s.deps ∧
    (stop_pipeline s pid).2.name
      = ((s.pipelines.find? (fun p => p.pipelineId == pid)).map
          (fun p => p.originalPrompt.take 50)).getD "Unknown" ∧
    (s.pipelines.find? (fun p => p.pipelineId == pid) = none →
      (stop_pipeline s pid).1 = s) := by
  have hpres : ∀ x : Pipeline,
      ((if x.pipelineId == pid then { x with status := PipelineStatus.cancelled } else x).pipelineId == pid)
        = (x.pipelineId == pid) := by
    intro x
    by_cases hx : x.pipelineId == pid
    · simp [hx]
    · simp [hx]
  have hfind := find?_map_pres
    (fun x : Pipeline => if x.pipelineId == pid then { x with status := PipelineStatus.cancelled } else x)
    (fun p => p.pipelineId == pid) hpres s.pipelines
  have hpipes : (stop_pipeline s pid).1.pipelines
      = s.pipelines.map (fun x =>
          if x.pipelineId == pid then { x with status := PipelineStatus.cancelled } else x) := rfl
  refine ⟨rfl, rfl, ?_, rfl, rfl, ?_, ?_⟩
  · unfold pipeline_status
    rw [hpipes, hfind]
    cases h : s.pipelines.find? (fun p => p.pipelineId == pid) with
    | none => rfl
    | some p0 =>
      have hp0 := List.find?_some h
      have hp0' : p0.pipelineId = pid := by simpa using hp0
      simp [hp0']
  · cases h : s.pipelines.find? (fun p => p.pipelineId == pid) with
    | none => simp [stop_pipeline, h]
    | some p0 => simp [stop_pipeline, h]
  · intro h
    have hall := List.find?_eq_none.mp h
    have hmap : s.pipelines.map (fun x =>
        if x.pipelineId == pid then { x with status := PipelineStatus.cancelled } else x)
        = s.pipelines := by
      have hid : ∀ x ∈ s.pipelines,
          (if x.pipelineId == pid then { x with status := PipelineStatus.cancelled } else x) = x := by
        intro x hx
        have hxf : (x.pipelineId == pid) = false := by
          simpa using hall x hx
        simp [hxf]
      calc s.pipelines.map (fun x =>
            if x.pipelineId == pid then { x with status := PipelineStatus.cancelled } else x)
          = s.pipelines.map id := List.map_congr_left (fun x hx => hid x hx)
        _ = s.pipelines := List.map_id s.pipelines
    have hfst : (stop_pipeline s pid).1
        = { s with pipelines := s.pipelines.map (fun x =>
            if x.pipelineId == pid then { x with status := PipelineStatus.cancelled } else x) } := rfl
    rw [hfst, hmap]

/-- Witness for `stop_pipeline_total` at an unknown pipeline id on the empty
store. -/
theorem stop_pipeline_total_witness :
    (stop_pipeline emptyState "nope").2.status = "cancelled" ∧
    (stop_pipeline emptyState "nope").1 = emptyState :=
  ⟨(stop_pipeline_total emptyState "nope").1,
   (stop_pipeline_total emptyState "nope").2.2.2.2.2.2 rfl⟩

/-! ## C6: deadlock classification -/

/-- C6 counterexample.  Under the claim's satisfiability notion, v (whose
only incoming edge is an always-edge from a skipped u) is deadlocked.  The
deadlock query (main.py:354) has the unconditioned disjunct
`OR jd.dependency_type = 'always'`, so the code counts the edge as
satisfiable whatever u's status: v is not deadlocked and the completion
check leaves the store untouched instead of failing the pipeline. -/
theorem deadlock_always_edge_counterexample :
    deadlocked_claim c6_always_skipped_state { baseJob with jobId := "v" } = true ∧
    deadlocked_code c6_always_skipped_state { baseJob with jobId := "v" } = false ∧
    deadlock_exists c6_always_skipped_state "p" = false ∧
    check_pipeline_completion c6_always_skipped_state "p" = c6_always_skipped_state := by
  refine ⟨?_, ?_, ?_, ?_⟩ <;> decide

/-- The deadlock query's satisfiability condition coincides with the
amended notion in which an always-edge is unconditionally potentially
satisfiable. -/
theorem dep_satisfiable_code_eq_amended (s : State) (d : Dep) :
    dep_satisfiable_code s d = dep_satisfiable_amended s d := by
  have key : ∀ (t : DepType) (st : JobStatus),
      (st == JobStatus.running || st == JobStatus.pending
        || (t == DepType.success && st == JobStatus.completed)
        || (t == DepType.failure && st == JobStatus.failed)
        || t == DepType.always)
      = (st == JobStatus.pending || st == JobStatus.running
        || (match t with
            | DepType.success => st == JobStatus.completed
            | DepType.failure => st == JobStatus.failed
            | DepType.always => true)) := by
    intro t st
    cases t <;> cases st <;> rfl
  unfold dep_satisfiable_code dep_satisfiable_amended
  apply congrArg
  funext u
  exact congrArg (fun b => u.jobId == d.dependsOn && b) (key d.depType u.status)

/-- When the deadlock query counts at least one job, the completion check
takes the deadlock branch: pipeline set `failed`, pending jobs of the
pipeline set `skipped` with reason `pipeline_deadlocked`. -/
theorem check_pipeline_deadlock_branch (s : State) (pid : String)
    (hdl : deadlock_exists s pid = true) :
    check_pipeline_completion s pid
      = skip_pending_jobs (set_pipeline_status s pid PipelineStatus.failed) pid := by
  have hex := List.any_eq_true.mp hdl
  obtain ⟨j0, hj0mem, hj0dead⟩ := hex
  have hj0dead' := hj0dead
  unfold deadlocked_code at hj0dead'
  rw [Bool.and_eq_true, Bool.and_eq_true] at hj0dead'
  obtain ⟨⟨hp, _⟩, _⟩ := hj0dead'
  have hpend : j0.status = JobStatus.pending := by simpa using hp
  have hemp : (jobs_of s pid).isEmpty = false := by
    cases hjl : jobs_of s pid with
    | nil => rw [hjl] at hj0mem; cases hj0mem
    | cons a l => rfl
  have hallf : (jobs_of s pid).all (fun j => isTerminal j.status) = false := by
    refine Bool.eq_false_iff.mpr (fun hall => ?_)
    have hterm := List.all_eq_true.mp hall j0 hj0mem
    rw [hpend] at hterm
    exact absurd hterm (by decide)
  have hpendany : (jobs_of s pid).any (fun j => j.status == JobStatus.pending) = true :=
    List.any_eq_true.mpr ⟨j0, hj0mem, by rw [hpend]; rfl⟩
  simp [check_pipeline_completion, hemp, hallf, hpendany, hdl]

/-- C6 amended.  The deadlock classification of the code agrees with the
amended wording (a pending job with at least one incoming edge and no
potentially satisfiable incoming edge, where an always-edge counts as
potentially satisfiable whatever the source job's status — so an always-edge
from a skipped job does not deadlock its target); and whenever a deadlocked
job is counted, the completion check sets the pipeline `failed` and every
remaining pending job of the pipeline `skipped` with termination_reason
`pipeline_deadlocked` (main.py:332-380). -/
theorem deadlock_classification_amended (s : State) (pid : String) (j : Job) :
    deadlocked_code s j = deadlocked_amended s j ∧
    (deadlock_exists s pid = true →
      check_pipeline_completion s pid
        = skip_pending_jobs (set_pipeline_status s pid PipelineStatus.failed) pid) := by
  constructor
  · have hany : (s.deps.any (fun d => d.jobId == j.jobId && dep_satisfiable_code s d))
        = (s.deps.any (fun d => d.jobId == j.jobId && dep_satisfiable_amended s d)) := by
      apply congrArg
      funext d
      rw [dep_satisfiable_code_eq_amended]
    have comm : ∀ a b c : Bool, (a && b && c) = (a && c && b) := by decide
    unfold deadlocked_code deadlocked_amended
    rw [hany]
    exact comm _ _ _
  · exact check_pipeline_deadlock_branch s pid

/-- Witness for `deadlock_classification_amended` on a genuinely deadlocked
concrete store. -/
theorem deadlock_classification_amended_witness :
    deadlocked_code c6_failure_completed_state { baseJob with jobId := "v" }
      = deadlocked_amended c6_failure_completed_state { baseJob with jobId := "v" } ∧
    check_pipeline_completion c6_failure_completed_state "p"
      = skip_pending_jobs
          (set_pipeline_status c6_failure_completed_state "p" PipelineStatus.failed) "p" :=
  ⟨(deadlock_classification_amended c6_failure_completed_state "p"
      { baseJob with jobId := "v" }).1,
   (deadlock_classification_amended c6_failure_completed_state "p"
      { baseJob with jobId := "v" }).2 (by decide)⟩

/-! ## C2: pipeline terminal status vs job statuses -/

/-- C2 counterexample.  Claim: a terminal pipeline is `failed` iff at least
one of its jobs is `failed`.  On the store where u is completed and pending
v has a single failure-edge from u, the deadlock branch fires: the pipeline
ends `failed` while every job is terminal and none is `failed`. -/
theorem pipeline_failed_without_failed_job :
    pipeline_status (check_pipeline_completion c6_failure_completed_state "p") "p"
      = some PipelineStatus.failed ∧
    (check_pipeline_completion c6_failure_completed_state "p").jobs.all
      (fun j => !(j.status == JobStatus.failed)) = true ∧
    (check_pipeline_completion c6_failure_completed_state "p").jobs.all
      (fun j => isTerminal j.status) = true := by
  refine ⟨?_, ?_, ?_⟩ <;> decide

/-- Setting a pipeline status leaves the jobs untouched. -/
theorem jobs_of_set_pipeline_status (s : State) (pid pid2 : String) (st : PipelineStatus) :
    jobs_of (set_pipeline_status s pid st) pid2 = jobs_of s pid2 := rfl

/-- The status written by set_pipeline_status is visible when the pipeline
row exists. -/
theorem pipeline_status_set (s : State) (pid : String) (st st0 : PipelineStatus)
    (h : pipeline_status s pid = some st0) :
    pipeline_status (set_pipeline_status s pid st) pid = some st := by
  have hpres : ∀ x : Pipeline,
      ((if x.pipelineId == pid then { x with status := st } else x).pipelineId == pid)
        = (x.pipelineId == pid) := by
    intro x
    by_cases hx : x.pipelineId == pid
    · simp [hx]
    · simp [hx]
  unfold pipeline_status at h ⊢
  unfold set_pipeline_status
  rw [find?_map_pres _ _ hpres]
  cases hf : s.pipelines.find? (fun p => p.pipelineId == pid) with
  | none => rw [hf] at h; cases h
  | some p0 =>
    have hp0 := List.find?_some hf
    have hp0' : p0.pipelineId = pid := by simpa using hp0
    simp [hp0']

/-- skip_pending_jobs leaves the pipelines untouched. -/
theorem pipeline_status_skip (s : State) (pid pid2 : String) :
    pipeline_status (skip_pending_jobs s pid) pid2 = pipeline_status s pid2 := rfl

/-- The jobs of a pipeline after skip_pending_jobs: pending ones become
skipped with reason pipeline_deadlocked, the rest are untouched. -/
theorem jobs_of_skip_pending (s : State) (pid : String) :
    jobs_of (skip_pending_jobs s pid) pid
      = (jobs_of s pid).map (fun j =>
          if j.pipelineId == pid && j.status == JobStatus.pending then
            { j with status := JobStatus.skipped
                     terminationReason := some "pipeline_deadlocked" }
          else j) := by
  refine filter_map_pres _ _ (fun j => ?_) s.jobs
  by_cases hc : j.pipelineId == pid && j.status == JobStatus.pending
  · simp [hc]
  · simp [hc]

/-- A status that is neither pending nor running is terminal. -/
theorem isTerminal_of_not_pending_not_running (st : JobStatus)
    (h1 : ¬ st = JobStatus.pending) (h2 : ¬ st = JobStatus.running) :
    isTerminal st = true := by
  cases st <;> simp_all [isTerminal]

/-- With every job terminal, the deadlock query counts nothing (a deadlocked
job must be pending). -/
theorem deadlock_exists_false_of_all_terminal (s : State) (pid : String)
    (h2 : (jobs_of s pid).all (fun j => isTerminal j.status) = true) :
    deadlock_exists s pid = false := by
  refine Bool.eq_false_iff.mpr (fun hdl => ?_)
  obtain ⟨j0, hm, hd⟩ := List.any_eq_true.mp hdl
  unfold deadlocked_code at hd
  rw [Bool.and_eq_true, Bool.and_eq_true] at hd
  obtain ⟨⟨hp, _⟩, _⟩ := hd
  have hpend : j0.status = JobStatus.pending := by simpa using hp
  have hterm := List.all_eq_true.mp h2 j0 hm
  rw [hpend] at hterm
  exact absurd hterm (by decide)

/-- C2 amended.  For a running pipeline with at least one job and no running
job (the quiescent point): after the completion check, the pipeline has a
terminal status iff every job under it is terminal; and a terminal status is
`failed` iff at least one job is `failed` or the deadlock query counted a
pending job, otherwise it is `completed` (main.py:308-380). -/
theorem pipeline_completion_amended (s : State) (pid : String)
    (hrun : pipeline_status s pid = some PipelineStatus.running)
    (hne : (jobs_of s pid).isEmpty = false)
    (hq : (jobs_of s pid).all (fun j => !(j.status == JobStatus.running)) = true) :
    ((pipeline_status (check_pipeline_completion s pid) pid = some PipelineStatus.completed
        ∨ pipeline_status (check_pipeline_completion s pid) pid = some PipelineStatus.failed)
      ↔ (jobs_of (check_pipeline_completion s pid) pid).all
          (fun j => isTerminal j.status) = true)
    ∧ ((pipeline_status (check_pipeline_completion s pid) pid = some PipelineStatus.completed
        ∨ pipeline_status (check_pipeline_completion s pid) pid = some PipelineStatus.failed)
      → (pipeline_status (check_pipeline_completion s pid) pid = some PipelineStatus.failed
        ↔ ((jobs_of s pid).any (fun j => j.status == JobStatus.failed) = true
            ∨ deadlock_exists s pid = true))) := by
  by_cases h2 : (jobs_of s pid).all (fun j => isTerminal j.status) = true
  · have hc : check_pipeline_completion s pid
        = set_pipeline_status s pid
            (if (jobs_of s pid).any (fun j => j.status == JobStatus.failed) then
              PipelineStatus.failed
             else PipelineStatus.completed) := by
      simp [check_pipeline_completion, hne, h2]
    have hdlf := deadlock_exists_false_of_all_terminal s pid h2
    have hst := pipeline_status_set s pid
      (if (jobs_of s pid).any (fun j => j.status == JobStatus.failed) then PipelineStatus.failed
       else PipelineStatus.completed) PipelineStatus.running hrun
    rw [hc, jobs_of_set_pipeline_status, hst]
    cases hfany : (jobs_of s pid).any (fun j => j.status == JobStatus.failed) with
    | true => rw [hfany] at hst; simp [h2, hdlf]
    | false => rw [hfany] at hst; simp [h2, hdlf]
  · have h2f : (jobs_of s pid).all (fun j => isTerminal j.status) = false :=
      Bool.eq_false_iff.mpr h2
    have hp : (jobs_of s pid).any (fun j => j.status == JobStatus.pending) = true := by
      by_contra hcon
      apply h2
      refine List.all_eq_true.mpr (fun j hj => ?_)
      have hnr := List.all_eq_true.mp hq j hj
      have hnr' : ¬ j.status = JobStatus.running := by simpa using hnr
      have hnp' : ¬ j.status = JobStatus.pending := by
        intro hps
        exact hcon (List.any_eq_true.mpr ⟨j, hj, by rw [hps]; rfl⟩)
      exact isTerminal_of_not_pending_not_running _ hnp' hnr'
    by_cases hdl : deadlock_exists s pid = true
    · have hc := check_pipeline_deadlock_branch s pid hdl
      have hst : pipeline_status
          (skip_pending_jobs (set_pipeline_status s pid PipelineStatus.failed) pid) pid
          = some PipelineStatus.failed := by
        rw [pipeline_status_skip]
        exact pipeline_status_set s pid PipelineStatus.failed PipelineStatus.running hrun
      have hterm : (jobs_of
          (skip_pending_jobs (set_pipeline_status s pid PipelineStatus.failed) pid) pid).all
          (fun j => isTerminal j.status) = true := by
        rw [jobs_of_skip_pending, jobs_of_set_pipeline_status]
        refine List.all_eq_true.mpr (fun x hx => ?_)
        obtain ⟨j, hj, hxeq⟩ := List.mem_map.mp hx
        rw [← hxeq]
        have hjp : (j.pipelineId == pid) = true := (List.mem_filter.mp hj).2
        by_cases hps : j.status = JobStatus.pending
        · simp [hjp, hps, isTerminal]
        · have hnr := List.all_eq_true.mp hq j hj
          have hnr' : ¬ j.status = JobStatus.running := by simpa using hnr
          have hcf : (j.pipelineId == pid && j.status == JobStatus.pending) = false := by
            simp [hps]
          simp only [hcf, Bool.false_eq_true, if_false]
          exact isTerminal_of_not_pending_not_running _ hps hnr'
      rw [hc, hst]
      exact ⟨⟨fun _ => hterm, fun _ => Or.inr rfl⟩,
             fun _ => ⟨fun _ => Or.inr hdl, fun _ => rfl⟩⟩
    · have hdlf : deadlock_exists s pid = false := Bool.eq_false_iff.mpr hdl
      have hc : check_pipeline_completion s pid = s := by
        simp [check_pipeline_completion, hne, h2f, hp, hdlf]
      rw [hc, hrun]
      constructor
      · constructor
        · intro habs
          rcases habs with h | h <;> simp at h
        · intro hterm
          exact absurd hterm h2
      · intro habs
        rcases habs with h | h <;> simp at h

/-- Witness for `pipeline_completion_amended` at a concrete quiescent
store. -/
theorem pipeline_completion_amended_witness :
    ((pipeline_status (check_pipeline_completion c2_witness_state "p") "p"
          = some PipelineStatus.completed
        ∨ pipeline_status (check_pipeline_completion c2_witness_state "p") "p"
          = some PipelineStatus.failed)
      ↔ (jobs_of (check_pipeline_completion c2_witness_state "p") "p").all
          (fun j => isTerminal j.status) = true)
    ∧ ((pipeline_status (check_pipeline_completion c2_witness_state "p") "p"
          = some PipelineStatus.completed
        ∨ pipeline_status (check_pipeline_completion c2_witness_state "p") "p"
          = some PipelineStatus.failed)
      → (pipeline_status (check_pipeline_completion c2_witness_state "p") "p"
          = some PipelineStatus.failed
        ↔ ((jobs_of c2_witness_state "p").any (fun j => j.status == JobStatus.failed) = true
            ∨ deadlock_exists c2_witness_state "p" = true))) :=
  pipeline_completion_amended c2_witness_state "p" (by decide) (by decide) (by decide)

/-! ## C8: multiplier idempotency guard -/

/-- Every job inserted by spawn_multiplied_jobs carries the parent and the
declaring template job in parent_job_id and template_job_id
(job_multiplier.py:182-183). -/
theorem spawn_multiplied_jobs_fields (json_loads : String → Option PyItems)
    (finish_tasks : String → Option String) (s : State) (source_job_id : String)
    (tj : TemplateJob) (mc : Multiplier) (pipeline_id original_prompt : String) :
    ∀ j ∈ (spawn_multiplied_jobs json_loads finish_tasks s source_job_id tj mc
        pipeline_id original_prompt).1,
      j.parentJobId = some source_job_id ∧ j.templateJobId = some tj.templateJobId := by
  intro j hj
  unfold spawn_multiplied_jobs at hj
  cases hcnt : multiplier_tasks_content finish_tasks s source_job_id mc with
  | none => rw [hcnt] at hj; cases hj
  | some tc =>
    rw [hcnt] at hj
    simp only [] at hj
    split at hj
    · cases hj
    · obtain ⟨p, hp, hpe⟩ := List.mem_map.mp hj
      rw [← hpe]
      exact ⟨rfl, rfl⟩

/-- Same as `spawn_multiplied_jobs_fields` one level up, for the loop
body. -/
theorem multiplier_spawn_for_fields (json_loads : String → Option PyItems)
    (finish_tasks : String → Option String) (st : State)
    (completed_job_id pipeline_id original_prompt ctj : String) (tj : TemplateJob) :
    ∀ j ∈ (multiplier_spawn_for json_loads finish_tasks st completed_job_id
        pipeline_id original_prompt ctj tj).1,
      j.parentJobId = some completed_job_id ∧ j.templateJobId = some tj.templateJobId := by
  intro j hj
  unfold multiplier_spawn_for at hj
  cases hm : tj.jobMultiplier with
  | none => rw [hm] at hj; cases hj
  | some mc =>
    rw [hm] at hj
    simp only [] at hj
    cases hs : mc.sourceTemplateJobId with
    | none => rw [hs] at hj; cases hj
    | some stj =>
      rw [hs] at hj
      simp only [] at hj
      split at hj
      · cases hj
      · split at hj
        · cases hj
        · split at hj
          · cases hj
          · split at hj
            · cases hj
            · exact spawn_multiplied_jobs_fields json_loads finish_tasks st
                completed_job_id tj mc pipeline_id original_prompt j hj

/-- When a child for the pair (completed_job_id, tj.templateJobId) already
exists in the store, the loop body spawns nothing for tj
(job_multiplier.py:280-288). -/
theorem multiplier_spawn_for_guard (json_loads : String → Option PyItems)
    (finish_tasks : String → Option String) (st : State)
    (completed_job_id pipeline_id original_prompt ctj : String) (tj : TemplateJob)
    (hguard : st.jobs.any (fun j =>
      j.parentJobId == some completed_job_id
        && j.templateJobId == some tj.templateJobId) = true) :
    multiplier_spawn_for json_loads finish_tasks st completed_job_id
      pipeline_id original_prompt ctj tj = ([], []) := by
  unfold multiplier_spawn_for
  repeat' split <;> try rfl

/-- Fold invariant: once a child for the pair exists in the threaded store,
the rest of the loop appends no job for the pair. -/
theorem check_fold_no_respawn (json_loads : String → Option PyItems)
    (finish_tasks : String → Option String)
    (completed_job_id pipeline_id original_prompt ctj t : String) :
    ∀ (tjs : List TemplateJob) (st : State) (acc : List Job),
      st.jobs.any (fun j =>
        j.parentJobId == some completed_job_id && j.templateJobId == some t) = true →
      acc.all (fun j =>
        !(j.parentJobId == some completed_job_id && j.templateJobId == some t)) = true →
      ((tjs.foldl (check_spawn_step json_loads finish_tasks
          completed_job_id pipeline_id original_prompt ctj) (st, acc)).2.all
        (fun j =>
          !(j.parentJobId == some completed_job_id && j.templateJobId == some t)) = true) := by
  intro tjs
  induction tjs with
  | nil => intro st acc _ hacc; simpa using hacc
  | cons tj rest ih =>
    intro st acc h hacc
    rw [List.foldl_cons]
    by_cases ht : tj.templateJobId = t
    · have h' : st.jobs.any (fun j =>
          j.parentJobId == some completed_job_id
            && j.templateJobId == some tj.templateJobId) = true := by
        rw [ht]; exact h
      have hz := multiplier_spawn_for_guard json_loads finish_tasks st
        completed_job_id pipeline_id original_prompt ctj tj h'
      have hstep : check_spawn_step json_loads finish_tasks
          completed_job_id pipeline_id original_prompt ctj (st, acc) tj
          = ({ st with jobs := st.jobs ++ [], deps := st.deps ++ [] }, acc ++ []) := by
        unfold check_spawn_step
        rw [hz]
      rw [hstep]
      apply ih
      · simpa using h
      · simpa using hacc
    · have hfields := multiplier_spawn_for_fields json_loads finish_tasks st
        completed_job_id pipeline_id original_prompt ctj tj
      have hstep : check_spawn_step json_loads finish_tasks
          completed_job_id pipeline_id original_prompt ctj (st, acc) tj
          = ({ st with
                jobs := st.jobs ++ (multiplier_spawn_for json_loads finish_tasks st
                  completed_job_id pipeline_id original_prompt ctj tj).1
                deps := st.deps ++ (multiplier_spawn_for json_loads finish_tasks st
                  completed_job_id pipeline_id original_prompt ctj tj).2 },
             acc ++ (multiplier_spawn_for json_loads finish_tasks st
               completed_job_id pipeline_id original_prompt ctj tj).1) := rfl
      rw [hstep]
      apply ih
      · rw [List.any_append]
        rw [h]
        rfl
      · rw [List.all_append]
        rw [hacc]
        refine (Bool.true_and _).trans ?_
        refine List.all_eq_true.mpr (fun j hj => ?_)
        have hjf := hfields j hj
        have : (j.templateJobId == some t) = false := by
          rw [hjf.2]
          simp [ht]
        simp [this]

/-- C8.  When any job already exists whose parent_job_id is the completed
job and whose template_job_id is the declaring template job, a later
invocation of check_and_spawn_multiplied_jobs spawns no further job for
that (parent_job_id, template_job_id) pair (job_multiplier.py:280-288). -/
theorem multiplier_spawn_once (json_loads : String → Option PyItems)
    (finish_tasks : String → Option String) (s : State) (completed_job_id t : String)
    (h : s.jobs.any (fun j =>
      j.parentJobId == some completed_job_id && j.templateJobId == some t) = true) :
    (check_and_spawn_multiplied_jobs json_loads finish_tasks s completed_job_id).all
      (fun j =>
        !(j.parentJobId == some completed_job_id && j.templateJobId == some t)) = true := by
  unfold check_and_spawn_multiplied_jobs
  cases hcj : s.jobs.find? (fun j => j.jobId == completed_job_id) with
  | none => rfl
  | some cj =>
    simp only []
    cases htid : (s.pipelines.find? (fun p => p.pipelineId == cj.pipelineId)).bind
        (fun p => p.templateId) with
    | none => rfl
    | some tid =>
      simp only []
      by_cases h1 : tid = ""
      · simp [h1]
      · simp only [if_neg h1]
        cases hctj : cj.templateJobId with
        | none => rfl
        | some ctj =>
          simp only []
          by_cases h2 : ctj = ""
          · simp [h2]
          · simp only [if_neg h2]
            exact check_fold_no_respawn json_loads finish_tasks completed_job_id
              cj.pipelineId _ ctj t _ s [] h rfl

/-- Witness for `multiplier_spawn_once` at the concrete C8 store. -/
theorem multiplier_spawn_once_witness :
    (check_and_spawn_multiplied_jobs (fun _ => some (PyItems.list ["1", "2"]))
        (fun _ => none) c8_state "parent").all
      (fun j => !(j.parentJobId == some "parent" && j.templateJobId == some "tw")) = true :=
  multiplier_spawn_once (fun _ => some (PyItems.list ["1", "2"])) (fun _ => none)
    c8_state "parent" "tw" (by decide)

/-! ## C9: failure propagation idempotence -/

/-- Unfolding equation of propagate_job_failure for nonzero fuel. -/
theorem propagate_succ (n : Nat) (jobs : List Job) (deps : List Dep) (f : String) :
    propagate_job_failure (n + 1) jobs deps f
      = (deps.filter (fun d =>
          d.dependsOn == f && job_status jobs d.jobId == some JobStatus.pending)).foldl
          (propagate_step n deps) jobs := rfl

/-- set_job_skipped does not create pending jobs. -/
theorem job_status_set_skipped_pending (js : List Job) (x i : String)
    (h : job_status (set_job_skipped js x) i = some JobStatus.pending) :
    job_status js i = some JobStatus.pending := by
  have hpres : ∀ j : Job,
      (((if j.jobId == x then
          { j with status := JobStatus.skipped
                   terminationReason := some "dependency_failed" }
        else j) : Job).jobId == i) = (j.jobId == i) := by
    intro j
    by_cases hj : j.jobId == x
    · simp [hj]
    · simp [hj]
  unfold job_status set_job_skipped at h
  unfold job_status
  rw [find?_map_pres _ _ hpres] at h
  cases hf : js.find? (fun j => j.jobId == i) with
  | none => rw [hf] at h; cases h
  | some j0 =>
    rw [hf] at h
    simp only [Option.map_some'] at h
    by_cases hx : (j0.jobId == x) = true
    · rw [if_pos hx] at h
      simp at h
    · rw [if_neg hx] at h
      simp [h]

/-- The job updated by set_job_skipped is never pending afterwards. -/
theorem job_status_set_skipped_self (js : List Job) (x : String) :
    job_status (set_job_skipped js x) x ≠ some JobStatus.pending := by
  have hpres : ∀ j : Job,
      (((if j.jobId == x then
          { j with status := JobStatus.skipped
                   terminationReason := some "dependency_failed" }
        else j) : Job).jobId == x) = (j.jobId == x) := by
    intro j
    by_cases hj : j.jobId == x
    · simp [hj]
    · simp [hj]
  unfold job_status set_job_skipped
  rw [find?_map_pres _ _ hpres]
  cases hf : js.find? (fun j => j.jobId == x) with
  | none => simp
  | some j0 =>
    have hj0 := List.find?_some hf
    have hj0' : j0.jobId = x := by simpa using hj0
    simp [hj0']

/-- Propagation never makes a job pending: a job pending after the run (or
after the inner fold) was pending before. -/
theorem propagate_pending_mono :
    ∀ n : Nat,
      (∀ (jobs : List Job) (deps : List Dep) (f i : String),
        job_status (propagate_job_failure n jobs deps f) i = some JobStatus.pending →
        job_status jobs i = some JobStatus.pending)
      ∧ (∀ (l : List Dep) (jobs : List Job) (deps : List Dep) (i : String),
        job_status (l.foldl (propagate_step n deps) jobs) i = some JobStatus.pending →
        job_status jobs i = some JobStatus.pending) := by
  intro n
  induction n with
  | zero =>
    constructor
    · intro jobs deps f i h
      exact h
    · intro l
      induction l with
      | nil => intro jobs deps i h; exact h
      | cons d rest ih =>
        intro jobs deps i h
        rw [List.foldl_cons] at h
        have h2 := ih _ deps i h
        unfold propagate_step at h2
        split at h2
        · exact job_status_set_skipped_pending _ _ _ h2
        · exact h2
  | succ n ihn =>
    have hA : ∀ (jobs : List Job) (deps : List Dep) (f i : String),
        job_status (propagate_job_failure (n + 1) jobs deps f) i = some JobStatus.pending →
        job_status jobs i = some JobStatus.pending := by
      intro jobs deps f i h
      rw [propagate_succ] at h
      exact ihn.2 _ _ _ _ h
    constructor
    · exact hA
    · intro l
      induction l with
      | nil => intro jobs deps i h; exact h
      | cons d rest ih =>
        intro jobs deps i h
        rw [List.foldl_cons] at h
        have h2 := ih _ deps i h
        unfold propagate_step at h2
        split at h2
        · exact job_status_set_skipped_pending _ _ _ (hA _ _ _ _ h2)
        · exact h2

/-- After the fold has processed a success-edge, its dependent is no longer
pending. -/
theorem propagate_list_not_pending (n : Nat) :
    ∀ (l : List Dep) (jobs : List Job) (deps : List Dep) (d : Dep),
      d ∈ l → d.depType = DepType.success →
      job_status (l.foldl (propagate_step n deps) jobs) d.jobId ≠ some JobStatus.pending := by
  intro l
  induction l with
  | nil => intro jobs deps d hd; cases hd
  | cons d0 rest ih =>
    intro jobs deps d hd hsucc h
    rw [List.foldl_cons] at h
    rcases List.mem_cons.mp hd with heq | hdr
    · subst heq
      have hstep : job_status (propagate_step n deps jobs d) d.jobId ≠ some JobStatus.pending := by
        have hcond : (d.depType == DepType.success) = true := by rw [hsucc]; rfl
        unfold propagate_step
        rw [if_pos hcond]
        intro hpend
        exact job_status_set_skipped_self _ _ ((propagate_pending_mono n).1 _ _ _ _ hpend)
      exact hstep ((propagate_pending_mono n).2 rest _ deps _ h)
    · exact ih _ deps d hdr hsucc h

/-- A fold whose list holds no success-edge leaves the jobs unchanged. -/
theorem foldl_no_success (n : Nat) (deps : List Dep) :
    ∀ (l : List Dep) (jobs : List Job), (∀ d ∈ l, d.depType ≠ DepType.success) →
      l.foldl (propagate_step n deps) jobs = jobs := by
  intro l
  induction l with
  | nil => intro jobs _; rfl
  | cons d rest ih =>
    intro jobs hns
    rw [List.foldl_cons]
    have hd : (d.depType == DepType.success) = false :=
      beq_eq_false_iff_ne.mpr (hns d (List.mem_cons_self d rest))
    have hstep : propagate_step n deps jobs d = jobs := by
      unfold propagate_step
      simp [hd]
    rw [hstep]
    exact ih jobs (fun d' hd' => hns d' (List.mem_cons_of_mem _ hd'))

/-- C9.  Failure propagation is idempotent: running propagate_job_failure a
second time from the same failed job returns the state of the first run
unchanged (in particular the set of jobs skipped with reason
dependency_failed is the same), for every recursion-depth fuel — the first
run already skipped every pending success-edge dependent, the second run's
snapshot query therefore selects only failure/always edges, and those are
left alone (main.py:270-305). -/
theorem propagate_job_failure_idempotent (n : Nat) (jobs : List Job)
    (deps : List Dep) (failed_job_id : String) :
    propagate_job_failure n (propagate_job_failure n jobs deps failed_job_id) deps failed_job_id
      = propagate_job_failure n jobs deps failed_job_id := by
  cases n with
  | zero => rfl
  | succ m =>
    rw [propagate_succ m (propagate_job_failure (m + 1) jobs deps failed_job_id)
      deps failed_job_id]
    apply foldl_no_success
    intro d hd hsucc
    obtain ⟨hdeps, hpred⟩ := List.mem_filter.mp hd
    rw [Bool.and_eq_true] at hpred
    obtain ⟨hdf, hpend1⟩ := hpred
    have hpend1' : job_status (propagate_job_failure (m + 1) jobs deps failed_job_id) d.jobId
        = some JobStatus.pending := by simpa using hpend1
    have hpend0 : job_status jobs d.jobId = some JobStatus.pending :=
      (propagate_pending_mono (m + 1)).1 _ _ _ _ hpend1'
    have hd1 : d ∈ deps.filter (fun d =>
        d.dependsOn == failed_job_id && job_status jobs d.jobId == some JobStatus.pending) := by
      refine List.mem_filter.mpr ⟨hdeps, ?_⟩
      rw [Bool.and_eq_true]
      exact ⟨hdf, by rw [hpend0]; rfl⟩
    have hnp := propagate_list_not_pending m _ jobs deps d hd1 hsucc
    rw [← propagate_succ] at hnp
    exact hnp hpend1'

end Clowder
